import Mathlib

/-!
Verification of the pgdproxy wire codec and session state machine.

This file shallowly embeds the Rust sources `src/pg_codec.rs` and
`src/forwarder.rs`.  Byte buffers are `List Nat` (each element one byte),
machine-integer arithmetic is made explicit (`i32` values are `Int`s obtained
by two's-complement reading; the `as usize` cast and `usize` addition wrap at
`2^64`, the release-build semantics), fallible I/O is modelled by explicit
result types, and a run-time failure of an `unwrap()` or of an out-of-bounds
index is modelled by a dedicated `panics`/`none` outcome.
-/

/-- The `usize` modulus of the 64-bit target: wrapping additions and the
`i32 as usize` cast in the source are taken modulo this. -/
def usizeMod : Nat := 2 ^ 64

/-- Reads four bytes as a big-endian `i32` (two's complement), as
`(&src[1..5]).get_i32()` does in `pg_codec.rs`. -/
def readI32BE (b0 b1 b2 b3 : Nat) : Int :=
  let n : Nat := ((b0 * 256 + b1) * 256 + b2) * 256 + b3
  if n < 2 ^ 31 then (n : Int) else (n : Int) - 2 ^ 32

/-- The `len as usize` cast of `pg_codec.rs` line 74: an `i32` sign-extended
to 64 bits, i.e. reduced modulo `2^64`. -/
def usizeOfI32 (v : Int) : Nat :=
  (v % (usizeMod : Int)).toNat

/-- A client-to-backend frame (`pub type ClientCommand = BytesMut`): the raw
bytes of one decoded message. -/
abbrev ClientCommand := List Nat

/-- `FrameInfo::done` for `ClientCommand`: `self[0] != b'P'` (`'P'` = 80).
Indexing `self[0]` on an empty buffer is a run-time failure, modelled as
`none`. -/
def ClientCommand.done (c : ClientCommand) : Option Bool :=
  c.head?.map (fun tag => tag != 80)

/-- `FrameInfo::command` for `ClientCommand`: `Some(self[0])`, with the
out-of-bounds failure on an empty buffer modelled as the outer `none`. -/
def ClientCommand.command (c : ClientCommand) : Option (Option Nat) :=
  c.head?.map some

/-- Result of one `Decoder::decode` call: `Ok(None)` (need more bytes),
`Ok(Some(frame))` together with the buffer that remains, or `Err(_)`. -/
inductive DecodeResult (α : Type) where
  | needMore : DecodeResult α
  | frame (f : α) (rest : List Nat) : DecodeResult α
  | ioErr : DecodeResult α
deriving DecidableEq, Repr

/-- `Decoder for ForwardingClientCodec` (`pg_codec.rs` lines 61-82):
if the buffer is empty or shorter than 5 bytes, yield none; otherwise read
the length as a big-endian `i32` at offsets 1..5, cast it to `usize`, and
split off `len + 1` bytes when available.  There is no validity check on the
length; `len + 1` wraps modulo `2^64`. -/
def clientDecode (src : List Nat) : DecodeResult ClientCommand :=
  if src.length = 0 then .needMore
  else if src.length < 5 then .needMore
  else
    let len := usizeOfI32 (readI32BE (src.getD 1 0) (src.getD 2 0) (src.getD 3 0) (src.getD 4 0))
    let bound := (len + 1) % usizeMod
    if src.length < bound then .needMore
    else .frame (src.take bound) (src.drop bound)

/-- `Encoder<ClientCommand> for ForwardingBackendCodec` (`pg_codec.rs` lines
84-91): `dst.extend_from_slice(&item)` — the frame's bytes verbatim. -/
def ForwardingBackendCodec.encode (item : ClientCommand) (dst : List Nat) : List Nat :=
  dst ++ item

/-- A backend-to-client frame (`ForwardingBackendData`): raw bytes plus the
`request_complete` flag computed at decode time. -/
structure ForwardingBackendData where
  buf : List Nat
  request_complete : Bool
deriving DecidableEq, Repr

/-- Result of `backend::Header::parse` of the `postgres_protocol` crate, as
used by `pg_codec.rs`: fewer than 5 buffered bytes yield `Ok(None)`
(`incomplete`); a big-endian `i32` length smaller than 4 yields `Err(_)`;
otherwise the tag byte and the length are returned. -/
inductive HeaderResult where
  | err : HeaderResult
  | incomplete : HeaderResult
  | header (tag : Nat) (len : Int) : HeaderResult
deriving DecidableEq, Repr

/-- Models `postgres_protocol::message::backend::Header::parse`. -/
def headerParse (buf : List Nat) : HeaderResult :=
  match buf with
  | t :: a :: b :: c :: d :: _ =>
    let len := readI32BE a b c d
    if len < 4 then .err else .header t len
  | _ => .incomplete

/-- `FrameInfo::done` for `ForwardingBackendData`: the stored
`request_complete` flag (never fails). -/
def ForwardingBackendData.done (d : ForwardingBackendData) : Option Bool :=
  some d.request_complete

/-- `FrameInfo::command` for `ForwardingBackendData`:
`backend::Header::parse(&self.buf).unwrap().map(|h| h.tag())`; the `unwrap`
of a parse error is a run-time failure, modelled as the outer `none`. -/
def ForwardingBackendData.command (d : ForwardingBackendData) : Option (Option Nat) :=
  match headerParse d.buf with
  | .err => none
  | .incomplete => some none
  | .header tag _ => some (some tag)

/-- `Decoder for ForwardingBackendCodec` (`pg_codec.rs` lines 93-117):
parse the header (propagating its error), mark the frame complete when the
tag is `'Z'` (= 90, `READY_FOR_QUERY_TAG`), and split off `len + 1` bytes
when available. -/
def backendDecode (src : List Nat) : DecodeResult ForwardingBackendData :=
  match headerParse src with
  | .err => .ioErr
  | .incomplete => .needMore
  | .header tag len =>
    let l := len.toNat + 1
    if src.length < l then .needMore
    else .frame ⟨src.take l, tag == 90⟩ (src.drop l)

/-- The `FrameInfo` trait of `pg_codec.rs`, as a record of its two methods.
A `none` result of either method models a run-time indexing or `unwrap`
failure. -/
structure FrameInfo (F : Type) where
  done : F → Option Bool
  command : F → Option (Option Nat)

/-- The `FrameInfo for ClientCommand` impl. -/
def clientFrameInfo : FrameInfo ClientCommand :=
  ⟨ClientCommand.done, ClientCommand.command⟩

/-- The `FrameInfo for ForwardingBackendData` impl. -/
def backendFrameInfo : FrameInfo ForwardingBackendData :=
  ⟨ForwardingBackendData.done, ForwardingBackendData.command⟩

/-- One event observed on a framed stream: `Some(Ok(frame))` or
`Some(Err(_))`; the end of the event list models `None` (EOF). -/
inductive StreamItem (F : Type) where
  | ok (f : F) : StreamItem F
  | ioError : StreamItem F
deriving DecidableEq, Repr

/-- Result of `Forwarder::do_forward`: the returned `(done, command)` pair on
success, the two error shapes the function produces (a framing/send error or
a disconnect), or a run-time failure inside `done()`/`command()`. -/
inductive FwdRes where
  | ok (done : Bool) (cmd : Option Nat) : FwdRes
  | errFraming : FwdRes
  | errDisconnected : FwdRes
  | panics : FwdRes
deriving DecidableEq, Repr

/-- Evaluates `data.done()` then `data.command()`; `none` when either fails
at run time. -/
def processFrame (ops : FrameInfo F) (f : F) : Option (Bool × Option Nat) :=
  match ops.done f, ops.command f with
  | some d, some c => some (d, c)
  | _, _ => none

/-- Pops the outcome of the next `target.send(..)` call from an oracle list
of send outcomes; an exhausted oracle means the send succeeds. -/
def popSend : List Bool → Bool × List Bool
  | [] => (true, [])
  | b :: rest => (b, rest)

/-- The `loop` of `Forwarder::do_forward` (`forwarder.rs` lines 347-374):
read a frame from `client`, compute `done`/`command`, send it to `target`,
and return when the frame is done or `until_complete` is false.  Returns the
result, the frames successfully delivered to the target, the unread suffix
of the source, and the remaining send oracle. -/
def do_forward_loop (ops : FrameInfo F) (until_complete : Bool) :
    List (StreamItem F) → List Bool → FwdRes × List F × List (StreamItem F) × List Bool
  | [], sends => (.errDisconnected, [], [], sends)
  | .ioError :: rest, sends => (.errFraming, [], rest, sends)
  | .ok f :: rest, sends =>
    match processFrame ops f with
    | none => (.panics, [], rest, sends)
    | some (d, c) =>
      match popSend sends with
      | (false, sends') => (.errFraming, [], rest, sends')
      | (true, sends') =>
        if d || !until_complete then (.ok d c, [f], rest, sends')
        else
          match do_forward_loop ops until_complete rest sends' with
          | (r, sent, rest', sends'') => (r, f :: sent, rest', sends'')

/-- `Forwarder::do_forward` (`forwarder.rs` lines 319-375): first handle the
optional `initial_message` exactly like a frame read in the loop, then run
the loop. -/
def do_forward (ops : FrameInfo F) (until_complete : Bool)
    (src : List (StreamItem F)) (sends : List Bool) (initial : Option F) :
    FwdRes × List F × List (StreamItem F) × List Bool :=
  match initial with
  | none => do_forward_loop ops until_complete src sends
  | some f =>
    match processFrame ops f with
    | none => (.panics, [], src, sends)
    | some (d, c) =>
      match popSend sends with
      | (false, sends') => (.errFraming, [], src, sends')
      | (true, sends') =>
        if d || !until_complete then (.ok d c, [f], src, sends')
        else
          match do_forward_loop ops until_complete src sends' with
          | (r, sent, rest', sends'') => (r, f :: sent, rest', sends'')

/-- `Forwarder::forward`: `do_forward` with `until_complete = true`. -/
def forward (ops : FrameInfo F) (src : List (StreamItem F)) (sends : List Bool)
    (initial : Option F) : FwdRes × List F × List (StreamItem F) × List Bool :=
  do_forward ops true src sends initial

/-- The state tags of the `Forwarder` enum of `forwarder.rs`.  The resources
each variant owns (sockets, codecs, the debug listener) are modelled
separately, as the explicit stream and send-oracle arguments of the
per-state step functions. -/
inductive Forwarder where
  | start
  | authenticated
  | listening
  | forwardingClient
  | forwardingServer
  | debugMode
  | debugForwardingClient
  | debugForwardingServer
deriving DecidableEq, Repr

/-- Session-level error values a `run` step can return. -/
inductive SessErr where
  | io : SessErr
  | disconnected : SessErr
deriving DecidableEq, Repr

/-- Outcome of one `Forwarder::run` step: the next state together with the
frames delivered to the opposite socket and the unread remainders, a fatal
error returned from `run` (tearing the Session down), or a run-time failure
(a Rust panic). -/
inductive StepOut (F : Type) where
  | next (s : Forwarder) (sent : List F) (srcRest : List (StreamItem F)) (sendsRest : List Bool) : StepOut F
  | fatal (e : SessErr) : StepOut F
  | panics : StepOut F
deriving DecidableEq, Repr

/-- The `Forwarder::Listening` arm of `run`, branch `state.client.next()`
(`forwarder.rs` lines 125-143): EOF and stream errors are fatal; an `Ok`
frame is passed to `forward(client, target, Some(data))`, whose error is
propagated by `?`; on success the next state is `Listening` when `done` and
`ForwardingClient` otherwise. -/
def runListeningClient (src : List (StreamItem ClientCommand)) (sends : List Bool) :
    StepOut ClientCommand :=
  match src with
  | [] => .fatal .disconnected
  | .ioError :: _ => .fatal .io
  | .ok data :: rest =>
    match forward clientFrameInfo rest sends (some data) with
    | (.ok d _, sent, rest', sends') =>
      .next (if d then .listening else .forwardingClient) sent rest' sends'
    | (.errFraming, _, _, _) => .fatal .io
    | (.errDisconnected, _, _, _) => .fatal .disconnected
    | (.panics, _, _, _) => .panics

/-- The `Forwarder::Listening` arm of `run`, branch `state.target.next()`
(`forwarder.rs` lines 144-162): like the client branch, with next state
`Listening` when `done` (Ready-for-Query) and `ForwardingServer`
otherwise. -/
def runListeningTarget (src : List (StreamItem ForwardingBackendData)) (sends : List Bool) :
    StepOut ForwardingBackendData :=
  match src with
  | [] => .fatal .disconnected
  | .ioError :: _ => .fatal .io
  | .ok data :: rest =>
    match forward backendFrameInfo rest sends (some data) with
    | (.ok d _, sent, rest', sends') =>
      .next (if d then .listening else .forwardingServer) sent rest' sends'
    | (.errFraming, _, _, _) => .fatal .io
    | (.errDisconnected, _, _, _) => .fatal .disconnected
    | (.panics, _, _, _) => .panics

/-- The outcome of the `Forwarder::Authenticated` arm. -/
inductive AuthenticatedStep where
  | next (s : Forwarder) : AuthenticatedStep
  | panics : AuthenticatedStep
deriving DecidableEq, Repr

/-- The `Forwarder::Authenticated` arm of `run` (`forwarder.rs` lines
94-122): `TcpListener::bind("127.0.0.1:0").await.unwrap()` — a bind failure
is unwrapped, i.e. a run-time panic, not an error value; on success the next
state is `Listening`.  (The `local_addr().unwrap()` calls on the freshly
bound listener behave the same way on failure.) -/
def runAuthenticated (bind_ok : Bool) : AuthenticatedStep :=
  if bind_ok then .next .listening else .panics

/-- The `Forwarder::DebugMode` arm of `run`, branch `debug_client.next()`
(`forwarder.rs` lines 203-227): EOF or a stream error runs
`debug_client.close().await.unwrap()` (a close failure panics) and returns
to `Listening`; a frame starting with `'X'` (= 88) returns to `Listening`
without touching the backend; any other frame goes through
`forward(debug_client, target, Some(data))` with `?`-propagated errors, and
on success the next state is `DebugForwardingServer` when `done`, else
`DebugForwardingClient`.  Indexing `data[0]` on an empty frame panics. -/
def runDebugModeDebug (src : List (StreamItem ClientCommand)) (sends : List Bool)
    (close_ok : Bool) : StepOut ClientCommand :=
  match src with
  | [] => if close_ok then .next .listening [] [] sends else .panics
  | .ioError :: rest => if close_ok then .next .listening [] rest sends else .panics
  | .ok data :: rest =>
    match data.head? with
    | none => .panics
    | some b =>
      if b == 88 then .next .listening [] rest sends
      else
        match forward clientFrameInfo rest sends (some data) with
        | (.ok d _, sent, rest', sends') =>
          .next (if d then .debugForwardingServer else .debugForwardingClient) sent rest' sends'
        | (.errFraming, _, _, _) => .fatal .io
        | (.errDisconnected, _, _, _) => .fatal .disconnected
        | (.panics, _, _, _) => .panics

/-- The `Forwarder::DebugMode` arm of `run`, branch `state.target.next()`
(`forwarder.rs` lines 229-247): EOF and stream errors are fatal; a frame is
forwarded to the debug client, with next state `Listening` when `done` and
`ForwardingServer` otherwise. -/
def runDebugModeTarget (src : List (StreamItem ForwardingBackendData)) (sends : List Bool) :
    StepOut ForwardingBackendData :=
  match src with
  | [] => .fatal .disconnected
  | .ioError :: _ => .fatal .io
  | .ok data :: rest =>
    match forward backendFrameInfo rest sends (some data) with
    | (.ok d _, sent, rest', sends') =>
      .next (if d then .listening else .forwardingServer) sent rest' sends'
    | (.errFraming, _, _, _) => .fatal .io
    | (.errDisconnected, _, _, _) => .fatal .disconnected
    | (.panics, _, _, _) => .panics

/-- The `Forwarder::DebugForwardingServer` arm of `run` (`forwarder.rs`
lines 275-299): `forward(target, debug_client, None)`; on success the next
state is `DebugMode` when `done`, else `DebugForwardingServer`; EVERY error
returned by `forward` — backend read errors and EOF included — is caught and
demotes to `DebugMode`. -/
def runDebugForwardingServer (src : List (StreamItem ForwardingBackendData))
    (sends : List Bool) : StepOut ForwardingBackendData :=
  match forward backendFrameInfo src sends none with
  | (.ok d _, sent, rest', sends') =>
    .next (if d then .debugMode else .debugForwardingServer) sent rest' sends'
  | (.errFraming, sent, rest', sends') => .next .debugMode sent rest' sends'
  | (.errDisconnected, sent, rest', sends') => .next .debugMode sent rest' sends'
  | (.panics, _, _, _) => .panics

/-- Outcome of `Forwarder::authenticate`: on success, the backend frames
forwarded to the primary client, the client frames forwarded to the backend,
and the recorded tag of the first backend frame. -/
inductive AuthRes where
  | ok (toClient : List ForwardingBackendData) (toBackend : List ClientCommand)
      (firstTag : Option Nat) : AuthRes
  | error (e : SessErr) : AuthRes
  | panics : AuthRes
deriving DecidableEq, Repr

/-- The guard of `forwarder.rs` line 441:
`tag.is_none() || tag.is_some_and(|t| t != 82)` (82 = `'R'`). -/
def authNeedsClientReply : Option Nat → Bool
  | none => true
  | some t => t != 82

/-- The tail of `Forwarder::authenticate` (line 447): drain the backend to
the primary until a done (Ready-for-Query) frame via
`forward(target, client, None)`, then return. -/
def authFinish (toClient1 : List ForwardingBackendData) (toBackend : List ClientCommand)
    (tag : Option Nat) (tSrc : List (StreamItem ForwardingBackendData))
    (sendsToClient : List Bool) : AuthRes :=
  match forward backendFrameInfo tSrc sendsToClient none with
  | (.ok _ _, toClient2, _, _) => .ok (toClient1 ++ toClient2) toBackend tag
  | (.errFraming, _, _, _) => .error .io
  | (.errDisconnected, _, _, _) => .error .disconnected
  | (.panics, _, _, _) => .panics

/-- `Forwarder::authenticate` (`forwarder.rs` lines 434-449): forward one
backend frame to the client recording its tag
(`do_forward(target, client, None, false)`); if the tag is `None` or differs
from 82 (`'R'`), forward one client frame to the backend
(`do_forward(client, target, None, false)`); then drain the backend to the
client until Ready-for-Query. -/
def authenticate (tSrc : List (StreamItem ForwardingBackendData))
    (cSrc : List (StreamItem ClientCommand))
    (sendsToClient sendsToBackend : List Bool) : AuthRes :=
  match do_forward backendFrameInfo false tSrc sendsToClient none with
  | (.errFraming, _, _, _) => .error .io
  | (.errDisconnected, _, _, _) => .error .disconnected
  | (.panics, _, _, _) => .panics
  | (.ok _ tag, toClient1, tRest, sc') =>
    if authNeedsClientReply tag then
      match do_forward clientFrameInfo false cSrc sendsToBackend none with
      | (.ok _ _, toBackend, _, _) => authFinish toClient1 toBackend tag tRest sc'
      | (.errFraming, _, _, _) => .error .io
      | (.errDisconnected, _, _, _) => .error .disconnected
      | (.panics, _, _, _) => .panics
    else authFinish toClient1 [] tag tRest sc'

/-- The first `write` of `Forwarder::fake_authenticate` (`forwarder.rs`
line 457): the canned AuthenticationOk frame. -/
def fakeAuthFirstWrite : List Nat := [82, 0, 0, 0, 8, 0, 0, 0, 0]

/-- The second `write` of `Forwarder::fake_authenticate` (line 461): the
canned ReadyForQuery (idle) frame. -/
def fakeAuthSecondWrite : List Nat := [90, 0, 0, 0, 5, 73]

/-- `Forwarder::fake_authenticate` (`forwarder.rs` lines 451-463): the full
ordered byte sequence written to the debug client by the step that runs
right after `fake_startup` has consumed the startup message, and before any
other traffic can reach the debug client. -/
def fake_authenticate : List Nat := fakeAuthFirstWrite ++ fakeAuthSecondWrite

/-- With `until_complete = true`, the loop of `do_forward` only returns
successfully once a done frame has been forwarded: a successful result
always carries `done = true`. -/
theorem do_forward_loop_done_eq_true {F : Type} (ops : FrameInfo F)
    (src : List (StreamItem F)) :
    ∀ sends d c sent rest sends',
      do_forward_loop ops true src sends = (.ok d c, sent, rest, sends') → d = true := by
  induction src with
  | nil =>
    intro sends d c sent rest sends' h
    simp [do_forward_loop] at h
  | cons head tail ih =>
    intro sends d c sent rest sends' h
    cases head with
    | ioError => simp [do_forward_loop] at h
    | ok f =>
      simp only [do_forward_loop] at h
      rcases hpf : processFrame ops f with _ | ⟨d0, c0⟩ <;> rw [hpf] at h
      · simp at h
      · rcases hps : popSend sends with ⟨b, s1⟩
        rw [hps] at h
        cases b
        · simp at h
        · simp only [Bool.not_true, Bool.or_false] at h
          cases d0
          · simp only [Bool.false_eq_true, if_false] at h
            rcases hrec : do_forward_loop ops true tail s1 with ⟨r, sent0, rest0, s2⟩
            rw [hrec] at h
            simp only [Prod.mk.injEq] at h
            obtain ⟨h1, _, _, _⟩ := h
            rw [h1] at hrec
            exact ih s1 d c sent0 rest0 s2 hrec
          · simp only [if_true] at h
            simp only [Prod.mk.injEq, FwdRes.ok.injEq] at h
            exact h.1.1.symm

/-- `do_forward` with `until_complete = true` (i.e. `Forwarder::forward`)
only succeeds with `done = true`. -/
theorem do_forward_done_eq_true {F : Type} (ops : FrameInfo F)
    (src : List (StreamItem F)) (sends : List Bool) (initial : Option F)
    (d : Bool) (c : Option Nat) (sent : List F) (rest : List (StreamItem F))
    (sends' : List Bool)
    (h : do_forward ops true src sends initial = (.ok d c, sent, rest, sends')) :
    d = true := by
  cases initial with
  | none => exact do_forward_loop_done_eq_true ops src sends d c sent rest sends' h
  | some f =>
    simp only [do_forward] at h
    rcases hpf : processFrame ops f with _ | ⟨d0, c0⟩ <;> rw [hpf] at h
    · simp at h
    · rcases hps : popSend sends with ⟨b, s1⟩
      rw [hps] at h
      cases b
      · simp at h
      · simp only [Bool.not_true, Bool.or_false] at h
        cases d0
        · simp only [Bool.false_eq_true, if_false] at h
          rcases hrec : do_forward_loop ops true src s1 with ⟨r, sent0, rest0, s2⟩
          rw [hrec] at h
          simp only [Prod.mk.injEq] at h
          obtain ⟨h1, _, _, _⟩ := h
          rw [h1] at hrec
          exact do_forward_loop_done_eq_true ops src s1 d c sent0 rest0 s2 hrec
        · simp only [if_true] at h
          simp only [Prod.mk.injEq, FwdRes.ok.injEq] at h
          exact h.1.1.symm

/-- `do_forward` with `until_complete = false` and no initial message (the
one-exchange mode used by `authenticate`) forwards exactly one frame when it
succeeds; in particular the list of delivered frames is non-empty. -/
theorem do_forward_once_sent_ne_nil {F : Type} (ops : FrameInfo F)
    (src : List (StreamItem F)) (sends : List Bool)
    (d : Bool) (c : Option Nat) (sent : List F) (rest : List (StreamItem F))
    (sends' : List Bool)
    (h : do_forward ops false src sends none = (.ok d c, sent, rest, sends')) :
    sent ≠ [] := by
  simp only [do_forward] at h
  cases src with
  | nil => simp [do_forward_loop] at h
  | cons head tail =>
    cases head with
    | ioError => simp [do_forward_loop] at h
    | ok f =>
      simp only [do_forward_loop] at h
      rcases hpf : processFrame ops f with _ | ⟨d0, c0⟩ <;> rw [hpf] at h
      · simp at h
      · rcases hps : popSend sends with ⟨b, s1⟩
        rw [hps] at h
        cases b
        · simp at h
        · simp only [Bool.not_false, Bool.or_true, if_true] at h
          simp only [Prod.mk.injEq] at h
          obtain ⟨_, h2, _, _⟩ := h
          rw [← h2]
          simp

/-- C3: the claim says a length field that is negative or smaller than 4
makes the client-directed decoder fail with a framing error.  The decoder of
`pg_codec.rs` performs no such check: with length field 0 it yields a bogus
1-byte frame, and with length field -2 it asks for more bytes; it never
returns `Err`. -/
theorem clientDecode_malformed_not_framing_error :
    clientDecode [81, 0, 0, 0, 0] = .frame [81] [0, 0, 0, 0] ∧
      clientDecode [81, 255, 255, 255, 254] = .needMore := by
  constructor <;> decide

/-- C6: whatever frame the client-directed decoder yields, the
backend-directed encoder writes back exactly the prefix of the input buffer
that the decoder consumed — the proxy is byte-transparent on the forward
direction and never splits or merges frames. -/
theorem client_codec_byte_transparent (src f rest : List Nat)
    (h : clientDecode src = .frame f rest) :
    ForwardingBackendCodec.encode f [] = f ∧ f ++ rest = src := by
  unfold clientDecode at h
  split at h
  · exact absurd h (by simp)
  · split at h
    · exact absurd h (by simp)
    · dsimp only at h
      split at h
      · exact absurd h (by simp)
      · rcases h with ⟨⟩
        exact ⟨rfl, List.take_append_drop _ _⟩

/-- Witness for C6 at the concrete well-formed frame `[81, 0, 0, 0, 4]`. -/
theorem client_codec_byte_transparent_witness :
    ForwardingBackendCodec.encode [81, 0, 0, 0, 4] [] = [81, 0, 0, 0, 4] ∧
      [81, 0, 0, 0, 4] ++ ([] : List Nat) = [81, 0, 0, 0, 4] :=
  client_codec_byte_transparent [81, 0, 0, 0, 4] [81, 0, 0, 0, 4] [] (by decide)

/-- C8: a decoded client frame is `done` (completes its request) exactly when
its tag byte differs from `'P'` (= 80, Parse). -/
theorem client_done_iff_not_parse (t : Nat) (rest : List Nat) :
    (ClientCommand.done (t :: rest) = some true ↔ t ≠ 80) ∧
      (ClientCommand.done (t :: rest) = some false ↔ t = 80) := by
  constructor
  · simp [ClientCommand.done]
  · simp [ClientCommand.done]

/-- C9: the claim says every frame yielded by the client-directed decoder is
non-empty, so `done` and `command` never index out of bounds.  With length
field -1 the `len + 1` bound wraps to 0 and the decoder yields the empty
frame (without consuming input); `done` and `command` then hit their
out-of-bounds indexing failure (modelled as `none`). -/
theorem clientDecode_can_yield_empty_frame :
    clientDecode [81, 255, 255, 255, 255] = .frame [] [81, 255, 255, 255, 255] ∧
      ClientCommand.done [] = none ∧ ClientCommand.command [] = none := by
  refine ⟨by decide, rfl, rfl⟩

/-- C2 counterexample: in `Listening`, a primary frame that does not
complete the request (tag `'P'` = 80) does NOT move the machine to
`ForwardingClient`.  `forward` drains further primary frames until a
completing one and the arm returns to `Listening`. -/
theorem listening_parse_frame_returns_listening :
    runListeningClient [.ok [80, 0, 0, 0, 4], .ok [81, 0, 0, 0, 4]] [] =
      .next .listening [[80, 0, 0, 0, 4], [81, 0, 0, 0, 4]] [] [] ∧
      Forwarder.listening ≠ Forwarder.forwardingClient := by
  constructor
  · decide
  · decide

/-- C2 amended: in the Idle (`Listening`) state, every successful handling
of a primary-client frame or of a backend frame returns to `Listening`;
when the triggering frame is non-completing the step first drains further
frames of the same source until a completing one, so the `ForwardingClient`
and `ForwardingServer` successors are never produced by this arm. -/
theorem listening_success_returns_listening
    (csrc : List (StreamItem ClientCommand)) (bsrc : List (StreamItem ForwardingBackendData))
    (cs bs cs' bs' : List Bool) (s t : Forwarder) (sc : List ClientCommand)
    (sb : List ForwardingBackendData) (rc : List (StreamItem ClientCommand))
    (rb : List (StreamItem ForwardingBackendData))
    (hc : runListeningClient csrc cs = .next s sc rc cs')
    (hb : runListeningTarget bsrc bs = .next t sb rb bs') :
    s = .listening ∧ t = .listening := by
  constructor
  · cases csrc with
    | nil => simp [runListeningClient] at hc
    | cons head rest =>
      cases head with
      | ioError => simp [runListeningClient] at hc
      | ok data =>
        simp only [runListeningClient] at hc
        rcases hfw : forward clientFrameInfo rest cs (some data) with ⟨r, sent0, rest0, s0⟩
        rw [hfw] at hc
        cases r with
        | ok d c =>
          have hd : d = true :=
            do_forward_done_eq_true clientFrameInfo rest cs (some data) d c sent0 rest0 s0 hfw
          dsimp only at hc
          injection hc with h1 _ _ _
          rw [← h1, hd]
          rfl
        | errFraming => simp at hc
        | errDisconnected => simp at hc
        | panics => simp at hc
  · cases bsrc with
    | nil => simp [runListeningTarget] at hb
    | cons head rest =>
      cases head with
      | ioError => simp [runListeningTarget] at hb
      | ok data =>
        simp only [runListeningTarget] at hb
        rcases hfw : forward backendFrameInfo rest bs (some data) with ⟨r, sent0, rest0, s0⟩
        rw [hfw] at hb
        cases r with
        | ok d c =>
          have hd : d = true :=
            do_forward_done_eq_true backendFrameInfo rest bs (some data) d c sent0 rest0 s0 hfw
          dsimp only at hb
          injection hb with h1 _ _ _
          rw [← h1, hd]
          rfl
        | errFraming => simp at hb
        | errDisconnected => simp at hb
        | panics => simp at hb

/-- Witness for the amended C2 at a completing client frame (tag `'Q'`) and
a Ready-for-Query backend frame. -/
theorem listening_success_returns_listening_witness :
    Forwarder.listening = .listening ∧ Forwarder.listening = .listening :=
  listening_success_returns_listening [.ok [81, 0, 0, 0, 4]] [.ok ⟨[90, 0, 0, 0, 5, 73], true⟩]
    [] [] [] [] .listening .listening [[81, 0, 0, 0, 4]] [⟨[90, 0, 0, 0, 5, 73], true⟩] [] []
    (by decide) (by decide)

/-- C1 counterexample: when the first backend frame of the authentication
exchange has tag 82 (`'R'`, here the AuthenticationOk frame), `authenticate`
forwards NO frame from the primary client to the backend — the claim says
this is exactly the case in which one is forwarded. -/
theorem authenticate_skips_reply_on_tag_82 :
    authenticate [.ok ⟨[82, 0, 0, 0, 8, 0, 0, 0, 0], false⟩, .ok ⟨[90, 0, 0, 0, 5, 73], true⟩]
        [.ok [112, 0, 0, 0, 4]] [] [] =
      .ok [⟨[82, 0, 0, 0, 8, 0, 0, 0, 0], false⟩, ⟨[90, 0, 0, 0, 5, 73], true⟩] [] (some 82) := by
  decide

/-- C1 amended: in a successful authentication exchange a frame is read from
the primary client and forwarded to the backend if and only if the recorded
tag of the first backend frame is NOT 82 (`'R'`) — equivalently, the
client-reply step is skipped exactly when that tag is `'R'`. -/
theorem authenticate_reply_iff_tag_not_82
    (tSrc : List (StreamItem ForwardingBackendData)) (cSrc : List (StreamItem ClientCommand))
    (sendsToClient sendsToBackend : List Bool)
    (toC : List ForwardingBackendData) (toB : List ClientCommand) (tag : Option Nat)
    (h : authenticate tSrc cSrc sendsToClient sendsToBackend = .ok toC toB tag) :
    toB = [] ↔ tag = some 82 := by
  unfold authenticate at h
  rcases h1 : do_forward backendFrameInfo false tSrc sendsToClient none with ⟨r1, toC1, tRest, sc1⟩
  rw [h1] at h
  cases r1 with
  | errFraming => simp at h
  | errDisconnected => simp at h
  | panics => simp at h
  | ok d1 tag1 =>
    dsimp only at h
    by_cases hcond : authNeedsClientReply tag1 = true
    · rw [if_pos hcond] at h
      rcases h2 : do_forward clientFrameInfo false cSrc sendsToBackend none with ⟨r2, toB1, cRest, sb1⟩
      rw [h2] at h
      cases r2 with
      | ok d2 c2 =>
        dsimp only at h
        unfold authFinish at h
        rcases h3 : forward backendFrameInfo tRest sc1 none with ⟨r3, toC2, tr3, sc3⟩
        rw [h3] at h
        cases r3 with
        | ok d3 c3 =>
          dsimp only at h
          injection h with hA hB hC
          subst hB
          subst hC
          have hne : toB1 ≠ [] :=
            do_forward_once_sent_ne_nil clientFrameInfo cSrc sendsToBackend d2 c2 toB1 cRest sb1 h2
          have htag : tag1 ≠ some 82 := by
            intro hq
            rw [hq] at hcond
            simp [authNeedsClientReply] at hcond
          constructor
          · intro hnil
            exact absurd hnil hne
          · intro hq
            exact absurd hq htag
        | errFraming => simp at h
        | errDisconnected => simp at h
        | panics => simp at h
      | errFraming => simp at h
      | errDisconnected => simp at h
      | panics => simp at h
    · rw [if_neg hcond] at h
      unfold authFinish at h
      rcases h3 : forward backendFrameInfo tRest sc1 none with ⟨r3, toC2, tr3, sc3⟩
      rw [h3] at h
      cases r3 with
      | ok d3 c3 =>
        dsimp only at h
        injection h with hA hB hC
        subst hB
        subst hC
        have htag : tag1 = some 82 := by
          cases tag1 with
          | none => simp [authNeedsClientReply] at hcond
          | some t =>
            simp [authNeedsClientReply] at hcond
            rw [hcond]
        simp [htag]
      | errFraming => simp at h
      | errDisconnected => simp at h
      | panics => simp at h

/-- Witness for the amended C1: with a first backend frame of tag 69
(`'E'`), the client reply is forwarded (the forwarded list is non-empty). -/
theorem authenticate_reply_iff_tag_not_82_witness :
    ([[112, 0, 0, 0, 4]] : List ClientCommand) = [] ↔ (some 69 : Option Nat) = some 82 :=
  authenticate_reply_iff_tag_not_82
    [.ok ⟨[69, 0, 0, 0, 4], false⟩, .ok ⟨[90, 0, 0, 0, 5, 73], true⟩]
    [.ok [112, 0, 0, 0, 4]] [] []
    [⟨[69, 0, 0, 0, 4], false⟩, ⟨[90, 0, 0, 0, 5, 73], true⟩] [[112, 0, 0, 0, 4]] (some 69)
    (by decide)

/-- C4: the claim says a backend read error in `DebugFwdServer` is fatal to
the Session.  In the source the `DebugForwardingServer` arm catches every
error `forward` returns — a backend stream error included — and demotes to
`DebugMode` (DebugIdle) instead of returning an error. -/
theorem debug_forwarding_server_backend_error_recovers :
    runDebugForwardingServer [.ioError] [] = .next .debugMode [] [] [] ∧
      ∀ e : SessErr,
        StepOut.next Forwarder.debugMode ([] : List ForwardingBackendData) [] [] ≠ .fatal e :=
  ⟨by decide, fun _ h => nomatch h⟩

/-- C5: the claim says no I/O failure inside a Session panics.  A failure of
`TcpListener::bind` in the `Authenticated` arm and a failure of
`debug_client.close()` in the `DebugMode` arm are both `unwrap()`ed, i.e.
they are run-time panics, not error values caught at the Session
boundary. -/
theorem session_io_failure_panics :
    runAuthenticated false = .panics ∧ runDebugModeDebug [] [] false = .panics :=
  ⟨rfl, rfl⟩

/-- C7: `fake_authenticate` writes exactly the nine AuthenticationOk bytes
`52 00 00 00 08 00 00 00 00` followed by the six ReadyForQuery bytes
`5A 00 00 00 05 49`, and nothing else, to the debug client. -/
theorem fake_authenticate_byte_exact :
    fake_authenticate = [0x52, 0, 0, 0, 0x08, 0, 0, 0, 0] ++ [0x5A, 0, 0, 0, 0x05, 0x49] ∧
      fake_authenticate.take 9 = [0x52, 0, 0, 0, 0x08, 0, 0, 0, 0] ∧
      fake_authenticate.drop 9 = [0x5A, 0, 0, 0, 0x05, 0x49] := by
  decide

/-- C10: in `DebugMode` (DebugIdle), a debug-client frame whose first byte
is `'X'` (= 88, Terminate) is never forwarded: the step delivers no frame to
the backend and the next state is `Listening` (Idle). -/
theorem debug_terminate_not_forwarded (f : ClientCommand)
    (rest : List (StreamItem ClientCommand)) (sends : List Bool) (close_ok : Bool)
    (h : f.head? = some 88) :
    runDebugModeDebug (.ok f :: rest) sends close_ok = .next .listening [] rest sends := by
  simp only [runDebugModeDebug, h]
  rfl

/-- Witness for C10 at a concrete Terminate frame. -/
theorem debug_terminate_not_forwarded_witness :
    runDebugModeDebug [.ok [88, 0, 0, 0, 4]] [] true = .next .listening [] [] [] :=
  debug_terminate_not_forwarded [88, 0, 0, 0, 4] [] [] true (by decide)
